import Mathlib

/-!
Verification development for the `live_trading` core of this repository.

The Python sources under `live_trading/` are shallowly embedded here:
float arithmetic is modelled by `ℚ` (all constants of the source are
exactly representable), Python dicts by association lists over `String`
keys, and stateful classes by explicit state records with pure state
passing.  `datetime.now()` is threaded as an explicit `now : ℕ` argument;
log statements have no effect on state and are dropped.

Embedded components and their sources:
* `shared.models.trade_models` (dataclasses/enums, reconstructed from
  their uses and the data-model section of the design document),
* `live_trading/risk_management/position_manager.py` (`PositionManager`),
* `live_trading/risk_management/risk_manager.py` (`RiskManager`),
* `live_trading/execution/order_executor.py` (`OrderExecutor`),
* `live_trading/execution/exchange_connector.py` (`MockExchangeConnector`),
* `live_trading/config/config_loader.py` (`ConfigLoader._validate_config`).
-/

/-- `trade_models.PositionSide`. -/
inductive PositionSide
  | LONG
  | SHORT
deriving DecidableEq, Repr

/-- `trade_models.OrderSide`. -/
inductive OrderSide
  | BUY
  | SELL
deriving DecidableEq, Repr

/-- `trade_models.OrderType`. -/
inductive OrderType
  | MARKET
  | LIMIT
deriving DecidableEq, Repr

/-- `trade_models.OrderStatus`.  The two extra members used only by the
live Binance status mapping are not needed by any embedded operation and
are omitted. -/
inductive OrderStatus
  | CREATED
  | PENDING
  | FILLED
  | FAILED
  | CANCELLED
deriving DecidableEq, Repr

/-- A status is terminal when it is `FILLED`, `FAILED` or `CANCELLED`. -/
def OrderStatus.isTerminal : OrderStatus → Bool
  | .FILLED => true
  | .FAILED => true
  | .CANCELLED => true
  | _ => false

/-- `trade_models.Position` (mutable dataclass; fields from
`position_manager.py` lines 120-132 and the data model). -/
structure Position where
  symbol : String
  side : PositionSide
  size : ℚ
  entry_price : ℚ
  current_price : ℚ
  unrealized_pnl : ℚ
  realized_pnl : ℚ
  margin : ℚ
  percentage : ℚ
  timestamp : ℕ
  order_id : Option String
deriving DecidableEq, Repr

/-- `trade_models.Signal` (fields from `main.py` lines 274-281). -/
structure Signal where
  symbol : String
  action : String
  strength : ℚ
  price : ℚ
  timestamp : ℕ
  reason : String
deriving DecidableEq, Repr

/-- `trade_models.AccountInfo` (fields from `exchange_connector.py`
lines 135-144). -/
structure AccountInfo where
  total_wallet_balance : ℚ
  total_unrealized_pnl : ℚ
  total_margin_balance : ℚ
  total_position_initial_margin : ℚ
  total_open_order_initial_margin : ℚ
  available_balance : ℚ
  max_withdraw_amount : ℚ
  timestamp : ℕ
deriving DecidableEq, Repr

/-- `trade_models.Order` (fields from `order_executor.py` lines 280-292). -/
structure Order where
  order_id : String
  symbol : String
  side : OrderSide
  type : OrderType
  quantity : ℚ
  price : ℚ
  status : OrderStatus
  timestamp : ℕ
  filled_price : ℚ
  filled_quantity : ℚ
  commission : ℚ
  filled_time : Option ℕ
deriving DecidableEq, Repr

/-! ### Python `dict` as an association list

Python dicts have unique keys; `dictSet` replaces in place (preserving
insertion order) and appends fresh keys, `dictErase` removes a key,
`dictGet` is subscript/`.get`. -/

/-- Lookup of a key (`d[k]` / `d.get(k)`). -/
def dictGet {α : Type} (k : String) : List (String × α) → Option α
  | [] => none
  | (k', v) :: t => if k' = k then some v else dictGet k t

/-- Update/insert of a key (`d[k] = v`). -/
def dictSet {α : Type} (k : String) (v : α) : List (String × α) → List (String × α)
  | [] => [(k, v)]
  | (k', v') :: t => if k' = k then (k, v) :: t else (k', v') :: dictSet k v t

/-- Deletion of a key (`del d[k]`). -/
def dictErase {α : Type} (k : String) (d : List (String × α)) : List (String × α) :=
  d.filter (fun kv => kv.1 ≠ k)

/-! ### PositionManager (`risk_management/position_manager.py`)

The manager's mutable state: the live position table `positions`
(a dict keyed by symbol), the immutable `position_history` list, and the
two configuration parameters read in `__init__`. -/

/-- State of `PositionManager`. -/
structure PositionManager where
  positions : List (String × Position)
  position_history : List Position
  max_positions : ℕ
  position_timeout : ℚ
deriving Repr

namespace PositionManager

/-- `PositionManager.has_position` (lines 51-61): a symbol has a live
position iff it is in the table with strictly positive size. -/
def has_position (pm : PositionManager) (symbol : String) : Bool :=
  match dictGet symbol pm.positions with
  | some p => decide (0 < p.size)
  | none => false

/-- `PositionManager._add_to_position` (lines 139-167).  The source is
only called with the symbol present in the table (it would raise
`KeyError` otherwise, modelled by `none`); its `order_id` parameter is
unused in the source body as well. -/
def add_to_position (pm : PositionManager) (symbol : String) (additional_size : ℚ)
    (price : ℚ) (order_id : Option String) (now : ℕ) :
    PositionManager × Option Position :=
  match dictGet symbol pm.positions with
  | some position =>
    let total_cost := position.size * position.entry_price + additional_size * price
    let new_size := position.size + additional_size
    let new_entry_price := total_cost / new_size
    let position' := { position with
      size := new_size
      entry_price := new_entry_price
      margin := position.margin + additional_size
      timestamp := now }
    ({ pm with positions := dictSet symbol position' pm.positions }, some position')
  | none => (pm, none)

/-- The history record built by `PositionManager.close_position`
(lines 191-213): the position closed at price `cp`, with its realized
PnL signed by side. -/
def closed_record (position : Position) (cp : ℚ) (now : ℕ) : Position :=
  let realized_pnl :=
    if position.side = PositionSide.LONG then
      (cp - position.entry_price) * position.size
    else
      (position.entry_price - cp) * position.size
  { symbol := position.symbol
    side := position.side
    size := position.size
    entry_price := position.entry_price
    current_price := cp
    unrealized_pnl := 0
    realized_pnl := realized_pnl
    margin := position.margin
    percentage := realized_pnl / (position.entry_price * position.size) * 100
    timestamp := now
    order_id := position.order_id }

/-- `PositionManager.close_position` (lines 169-223).  The `reason`
argument is only logged and is dropped; `close_price = none` models the
Python default `None` (fall back to the position's current price). -/
def close_position (pm : PositionManager) (symbol : String)
    (close_price : Option ℚ) (now : ℕ) : PositionManager × Option Position :=
  if pm.has_position symbol then
    match dictGet symbol pm.positions with
    | some position =>
      let cp := close_price.getD position.current_price
      let closed_position := closed_record position cp now
      ({ pm with
          position_history := pm.position_history ++ [closed_position]
          positions := dictErase symbol pm.positions },
        some closed_position)
    | none => (pm, none)
  else (pm, none)

/-- The fresh `Position` built by `PositionManager.open_position`
(lines 120-132): entered at `entry_price`, marked at `entry_price`, with
`margin := size` (the source's simplification). -/
def new_position (symbol : String) (side : PositionSide) (size entry_price : ℚ)
    (order_id : Option String) (now : ℕ) : Position :=
  { symbol := symbol
    side := side
    size := size
    entry_price := entry_price
    current_price := entry_price
    unrealized_pnl := 0
    realized_pnl := 0
    margin := size
    percentage := 0
    timestamp := now
    order_id := order_id }

/-- `PositionManager.open_position` (lines 94-137).  With an existing
same-side position it delegates to `_add_to_position`; with an existing
opposite-side position it first calls `close_position` on the symbol and
then creates the new position. -/
def open_position (pm : PositionManager) (symbol : String) (side : PositionSide)
    (size : ℚ) (entry_price : ℚ) (order_id : Option String) (now : ℕ) :
    PositionManager × Option Position :=
  let create := fun (pm' : PositionManager) =>
    let position := new_position symbol side size entry_price order_id now
    ({ pm' with positions := dictSet symbol position pm'.positions }, some position)
  if pm.has_position symbol then
    match dictGet symbol pm.positions with
    | some existing_position =>
      if existing_position.side = side then
        pm.add_to_position symbol size entry_price order_id now
      else
        create (pm.close_position symbol none now).1
    | none => create pm
  else create pm

/-- `PositionManager.reduce_position` (lines 225-262). -/
def reduce_position (pm : PositionManager) (symbol : String) (reduce_size : ℚ)
    (price : ℚ) (now : ℕ) : PositionManager × Option Position :=
  if pm.has_position symbol then
    match dictGet symbol pm.positions with
    | some position =>
      if position.size ≤ reduce_size then
        pm.close_position symbol (some price) now
      else
        let partial_pnl :=
          if position.side = PositionSide.LONG then
            (price - position.entry_price) * reduce_size
          else
            (position.entry_price - price) * reduce_size
        let position' := { position with
          size := position.size - reduce_size
          margin := position.margin - reduce_size
          realized_pnl := position.realized_pnl + partial_pnl
          timestamp := now }
        ({ pm with positions := dictSet symbol position' pm.positions }, some position')
    | none => (pm, none)
  else (pm, none)

/-- `PositionManager.get_total_unrealized_pnl` (lines 303-310). -/
def get_total_unrealized_pnl (pm : PositionManager) : ℚ :=
  (pm.positions.filter (fun kv => decide (0 < kv.2.size))).foldr
    (fun kv acc => kv.2.unrealized_pnl + acc) 0

/-- `PositionManager.get_total_realized_pnl` (lines 312-321). -/
def get_total_realized_pnl (pm : PositionManager) : ℚ :=
  pm.positions.foldr (fun kv acc => kv.2.realized_pnl + acc) 0 +
    pm.position_history.foldr (fun p acc => p.realized_pnl + acc) 0

end PositionManager

/-! ### RiskManager (`risk_management/risk_manager.py`)

The manager's mutable state: the configured limits read in `__init__`
(lines 43-49, 62) and the risk/statistics counters (lines 52-67).
The alert message strings built by `_check_risk_limits` are abstracted
to labels (they are only displayed, never inspected); the entries of
`trade_history` are abstracted to their `pnl` values, the only field the
manager ever reads back. -/

/-- Labels for the alert strings appended by
`RiskManager._check_risk_limits`. -/
inductive RiskAlert
  | drawdown_warning
  | daily_loss_warning
  | trade_count_warning
deriving DecidableEq, Repr

/-- State of `RiskManager`. -/
structure RiskManager where
  max_position_percentage : ℚ
  max_daily_loss_percentage : ℚ
  max_drawdown_percentage : ℚ
  stop_loss_percentage : ℚ
  take_profit_percentage : ℚ
  min_position_size : ℚ
  max_leverage : ℚ
  daily_start_balance : ℚ
  peak_balance : ℚ
  current_balance : ℚ
  daily_pnl : ℚ
  total_pnl : ℚ
  current_drawdown : ℚ
  max_drawdown : ℚ
  trades_today : ℕ
  max_trades_per_day : ℕ
  trade_history : List ℚ
  trading_enabled : Bool
  risk_alerts : List RiskAlert
deriving DecidableEq, Repr

namespace RiskManager

/-- `RiskManager._check_risk_limits` (lines 236-258): clears the alert
list and re-appends the warnings whose conditions hold, in source order. -/
def check_risk_limits (r : RiskManager) : List RiskAlert :=
  (if r.max_drawdown_percentage * (8/10) < r.current_drawdown then
    [RiskAlert.drawdown_warning] else []) ++
  (if 0 < r.daily_start_balance ∧ r.daily_pnl < 0 ∧
      r.max_daily_loss_percentage * (8/10) < |r.daily_pnl| / r.daily_start_balance then
    [RiskAlert.daily_loss_warning] else []) ++
  (if (r.max_trades_per_day : ℚ) * (8/10) < (r.trades_today : ℚ) then
    [RiskAlert.trade_count_warning] else [])

/-- `RiskManager.update_account_info` (lines 71-90). -/
def update_account_info (r : RiskManager) (account_info : AccountInfo) : RiskManager :=
  let current_balance := account_info.total_wallet_balance
  let peak_balance :=
    if r.peak_balance < current_balance then current_balance else r.peak_balance
  let current_drawdown :=
    if 0 < peak_balance then (peak_balance - current_balance) / peak_balance
    else r.current_drawdown
  let max_drawdown :=
    if 0 < peak_balance then max r.max_drawdown current_drawdown else r.max_drawdown
  let r' := { r with
    current_balance := current_balance
    peak_balance := peak_balance
    current_drawdown := current_drawdown
    max_drawdown := max_drawdown }
  { r' with risk_alerts := r'.check_risk_limits }

/-- `RiskManager.validate_signal` (lines 92-124).  The `signal`,
`account_info` and `current_position` arguments are never read by the
source body; only the manager's own state decides the outcome. -/
def validate_signal (r : RiskManager) (signal : Signal) (account_info : AccountInfo)
    (current_position : Option Position) : Bool :=
  if !r.trading_enabled then false
  else if r.max_trades_per_day ≤ r.trades_today then false
  else if r.max_drawdown_percentage < r.current_drawdown then false
  else
    let daily_loss_percentage :=
      if 0 < r.daily_start_balance then |r.daily_pnl| / r.daily_start_balance else 0
    if r.daily_pnl < 0 ∧ r.max_daily_loss_percentage < daily_loss_percentage then false
    else true

/-- `RiskManager.calculate_position_size` (lines 126-155).  `0.95` is the
exact rational `19/20`. -/
def calculate_position_size (r : RiskManager) (signal : Signal)
    (account_info : AccountInfo) : ℚ :=
  let available_balance := account_info.available_balance
  let base_position_size := available_balance * r.max_position_percentage
  let adjusted_size := base_position_size * signal.strength
  let adjusted_size := max adjusted_size r.min_position_size
  let adjusted_size := min adjusted_size (available_balance * (19/20))
  let max_position_with_leverage := available_balance * r.max_leverage
  min adjusted_size max_position_with_leverage

/-- `RiskManager.calculate_stop_loss_price` (lines 157-171). -/
def calculate_stop_loss_price (r : RiskManager) (entry_price : ℚ)
    (position_side : PositionSide) : ℚ :=
  if position_side = PositionSide.LONG then entry_price * (1 - r.stop_loss_percentage)
  else entry_price * (1 + r.stop_loss_percentage)

/-- `RiskManager.calculate_take_profit_price` (lines 173-187). -/
def calculate_take_profit_price (r : RiskManager) (entry_price : ℚ)
    (position_side : PositionSide) : ℚ :=
  if position_side = PositionSide.LONG then entry_price * (1 + r.take_profit_percentage)
  else entry_price * (1 - r.take_profit_percentage)

/-- `RiskManager.should_force_close_position` (lines 189-216). -/
def should_force_close_position (r : RiskManager) (position : Position)
    (current_price : ℚ) : Bool :=
  let pnl_percentage :=
    if position.side = PositionSide.LONG then
      (current_price - position.entry_price) / position.entry_price
    else
      (position.entry_price - current_price) / position.entry_price
  if pnl_percentage ≤ -r.stop_loss_percentage then true
  else if r.take_profit_percentage ≤ pnl_percentage then true
  else false

/-- `RiskManager.record_trade` (lines 218-234), restricted to a trade
record carrying a `pnl` value. -/
def record_trade (r : RiskManager) (pnl : ℚ) : RiskManager :=
  { r with
    trade_history := r.trade_history ++ [pnl]
    trades_today := r.trades_today + 1
    daily_pnl := r.daily_pnl + pnl
    total_pnl := r.total_pnl + pnl }

/-- `RiskManager.reset_daily_stats` (lines 260-266). -/
def reset_daily_stats (r : RiskManager) : RiskManager :=
  { r with
    daily_start_balance := r.current_balance
    daily_pnl := 0
    trades_today := 0
    risk_alerts := [] }

/-- `RiskManager.enable_trading` (lines 268-271). -/
def enable_trading (r : RiskManager) : RiskManager :=
  { r with trading_enabled := true }

/-- `RiskManager.disable_trading` (lines 273-276). -/
def disable_trading (r : RiskManager) : RiskManager :=
  { r with trading_enabled := false }

end RiskManager

/-! ### OrderExecutor (`execution/order_executor.py`)

In the source every container holds *references* to a single mutable
`Order` object: `pending_orders` maps the order id to it, and
`completed_orders`/`failed_orders` list it.  Mutating the object through
one reference is visible through every other.  We model the object store
explicitly: `orders` is the heap of live `Order` objects keyed by
`order_id`, and the three containers hold ids into it.

`execute_order` (lines 95-164) is an `async` method that suspends at the
awaited callback (line 130/139) *before* removing the order from
`pending_orders` (lines 144-145); `execute_order_callback_state` is the
executor state at that suspension point, and `execute_order` completes it
by the removal.  The 95%-success random draw of
`_execute_order_simulation` (line 190) is passed in as the `success_draw`
argument; the non-simulation path falls back to the same simulated
execution (lines 234-236). -/

/-- `order_executor.ExecutionResult`. -/
structure ExecutionResult where
  success : Bool
  order_id : String
  filled_price : ℚ
  filled_quantity : ℚ
  commission : ℚ
  error_message : String
  timestamp : ℕ
deriving DecidableEq, Repr

/-- State of `OrderExecutor`. -/
structure OrderExecutor where
  max_retry_count : ℕ
  retry_delay : ℚ
  order_timeout : ℚ
  slippage_tolerance : ℚ
  simulation_mode : Bool
  simulation_latency : ℚ
  simulation_slippage : ℚ
  orders : List (String × Order)
  pending_ids : List String
  completed_ids : List String
  failed_ids : List String
deriving DecidableEq, Repr

namespace OrderExecutor

/-- The current status of the `Order` object with the given id. -/
def status_of (ex : OrderExecutor) (order_id : String) : Option OrderStatus :=
  (dictGet order_id ex.orders).map Order.status

/-- `OrderExecutor._execute_order_simulation` (lines 166-206) minus the
`asyncio.sleep`: slippage-adjusted fill price, 0.1% commission, and the
outcome of the random draw. -/
def execute_order_simulation (ex : OrderExecutor) (order : Order)
    (success_draw : Bool) (now : ℕ) : ExecutionResult :=
  let filled_price :=
    if order.side = OrderSide.BUY then order.price * (1 + ex.simulation_slippage)
    else order.price * (1 - ex.simulation_slippage)
  let commission := order.quantity * filled_price * (1/1000)
  if success_draw then
    { success := true, order_id := order.order_id, filled_price := filled_price,
      filled_quantity := order.quantity, commission := commission,
      error_message := "", timestamp := now }
  else
    { success := false, order_id := order.order_id, filled_price := 0,
      filled_quantity := 0, commission := 0,
      error_message := "sim-fail", timestamp := now }

/-- Lines 107-109 of `execute_order`: register the order in
`pending_orders` and set its status to `PENDING` (one object, so the
heap entry and the pending reference agree). -/
def register_pending (ex : OrderExecutor) (order : Order) : OrderExecutor × Order :=
  let o₁ := { order with status := OrderStatus.PENDING }
  ({ ex with
      orders := dictSet order.order_id o₁ ex.orders
      pending_ids :=
        if order.order_id ∈ ex.pending_ids then ex.pending_ids
        else ex.pending_ids ++ [order.order_id] },
    o₁)

/-- Executor state at the awaited fill/fail callback (lines 130/139):
the order's terminal status and fill data are written and the order is
appended to `completed_orders` (line 126) or `failed_orders` (line 135),
but it has *not yet* been removed from `pending_orders`. -/
def execute_order_callback_state (ex : OrderExecutor) (order : Order)
    (success_draw : Bool) (now : ℕ) : OrderExecutor × ExecutionResult :=
  let exo := ex.register_pending order
  let ex₁ := exo.1
  let o₁ := exo.2
  let result := execute_order_simulation ex₁ o₁ success_draw now
  if result.success then
    let o₂ := { o₁ with
      status := OrderStatus.FILLED
      filled_price := result.filled_price
      filled_quantity := result.filled_quantity
      commission := result.commission
      filled_time := some result.timestamp }
    ({ ex₁ with
        orders := dictSet order.order_id o₂ ex₁.orders
        completed_ids := ex₁.completed_ids ++ [order.order_id] },
      result)
  else
    let o₂ := { o₁ with status := OrderStatus.FAILED }
    ({ ex₁ with
        orders := dictSet order.order_id o₂ ex₁.orders
        failed_ids := ex₁.failed_ids ++ [order.order_id] },
      result)

/-- `OrderExecutor.execute_order` (lines 95-164), run to completion with
no interleaving: the callback-point state followed by the removal from
`pending_orders` (lines 144-145). -/
def execute_order (ex : OrderExecutor) (order : Order) (success_draw : Bool)
    (now : ℕ) : OrderExecutor × ExecutionResult :=
  let so := ex.execute_order_callback_state order success_draw now
  ({ so.1 with
      pending_ids := so.1.pending_ids.filter (fun oid => oid ≠ order.order_id) },
    so.2)

/-- `OrderExecutor.cancel_order` (lines 294-324): guarded only by
membership in `pending_orders` (line 304), *not* by the order's status;
in simulation mode it sets the status to `CANCELLED` and removes the
pending entry. -/
def cancel_order (ex : OrderExecutor) (order_id : String) : OrderExecutor × Bool :=
  if order_id ∈ ex.pending_ids then
    if ex.simulation_mode then
      match dictGet order_id ex.orders with
      | some o =>
        ({ ex with
            orders := dictSet order_id { o with status := OrderStatus.CANCELLED } ex.orders
            pending_ids := ex.pending_ids.filter (fun oid => oid ≠ order_id) },
          true)
      | none => (ex, false)
    else (ex, false)
  else (ex, false)

end OrderExecutor

/-! ### MockExchangeConnector (`execution/exchange_connector.py`, lines 289-391) -/

/-- State of `MockExchangeConnector`. -/
structure MockExchangeConnector where
  mock_balance : ℚ
  mock_orders : List (String × Order)
  order_counter : ℕ
deriving DecidableEq, Repr

namespace MockExchangeConnector

/-- The current status of a mock order. -/
def status_of (m : MockExchangeConnector) (order_id : String) : Option OrderStatus :=
  (dictGet order_id m.mock_orders).map Order.status

/-- `MockExchangeConnector.create_order` (lines 323-353): a new order is
created `PENDING`; a `MARKET` order is then immediately marked `FILLED`
with a 0.1% commission. -/
def create_order (m : MockExchangeConnector) (symbol : String) (side : OrderSide)
    (order_type : OrderType) (quantity : ℚ) (price : Option ℚ) (now : ℕ) :
    MockExchangeConnector × Order :=
  let order_id := "MOCK_" ++ toString m.order_counter
  let order : Order := {
    order_id := order_id
    symbol := symbol
    side := side
    type := order_type
    quantity := quantity
    price := price.getD 0
    status := OrderStatus.PENDING
    timestamp := now
    filled_price := 0
    filled_quantity := 0
    commission := 0
    filled_time := none }
  let order :=
    if order_type = OrderType.MARKET then
      { order with
        status := OrderStatus.FILLED
        filled_price := price.getD 0
        filled_quantity := quantity
        commission := quantity * price.getD 0 * (1/1000) }
    else order
  ({ m with
      mock_orders := dictSet order_id order m.mock_orders
      order_counter := m.order_counter + 1 },
    order)

/-- `MockExchangeConnector.cancel_order` (lines 355-362): cancels only an
order whose status is still `PENDING`; any other order (in particular a
terminal one) is left untouched and `false` is returned. -/
def cancel_order (m : MockExchangeConnector) (symbol : String) (order_id : String) :
    MockExchangeConnector × Bool :=
  match dictGet order_id m.mock_orders with
  | some o =>
    if o.status = OrderStatus.PENDING then
      ({ m with
          mock_orders := dictSet order_id { o with status := OrderStatus.CANCELLED }
            m.mock_orders },
        true)
    else (m, false)
  | none => (m, false)

end MockExchangeConnector

/-! ### ConfigLoader (`config/config_loader.py`)

The raw JSON dict is modelled by a typed record holding the nine required
sections with the fields the loader reads; in this typed form the
section-presence checks of `_validate_config` (lines 161-168) always
pass, and `load_config`'s file existence and JSON parsing (lines 136-141)
are outside the model.  `_create_config_objects` (lines 203-215) is a
field-by-field copy into dataclasses, so `load_config` returns the
validated configuration itself. -/

/-- The `trading` section fields read by the loader. -/
structure TradingConfig where
  symbol : String
  simulation_mode : Bool
  initial_balance : ℚ
  max_position_percentage : ℚ
  leverage : ℚ
deriving DecidableEq, Repr

/-- The `strategy` section fields read by the loader. -/
structure StrategyConfig where
  name : String
  fast_ema_period : ℤ
  slow_ema_period : ℤ
  signal_strength_threshold : ℚ
deriving DecidableEq, Repr

/-- The `risk_management` section fields read by the loader. -/
structure RiskConfig where
  max_position_percentage : ℚ
  max_daily_loss_percentage : ℚ
  max_drawdown_percentage : ℚ
  stop_loss_percentage : ℚ
  take_profit_percentage : ℚ
  min_position_size : ℚ
  max_leverage : ℚ
  max_trades_per_day : ℤ
deriving DecidableEq, Repr

/-- The `exchange` section fields read by the loader. -/
structure ExchangeConfig where
  name : String
  testnet : Bool
  initial_balance : ℚ
deriving DecidableEq, Repr

/-- A parsed configuration file with all nine required sections present;
the sections not inspected by `_validate_config` are irrelevant to
validation and carry no modelled fields. -/
structure LiveTradingConfig where
  trading : TradingConfig
  strategy : StrategyConfig
  risk_management : RiskConfig
  exchange : ExchangeConfig
deriving DecidableEq, Repr

namespace ConfigLoader

/-- Python `str.lower()` as a character map (the names compared by the
loader are ASCII). -/
def lower (s : String) : String := ⟨s.data.map Char.toLower⟩

/-- `ConfigLoader._validate_config` (lines 159-201): `true` iff no
`ValueError` is raised.  The checks, in source order: positive initial
balance, `trading.max_position_percentage ∈ (0,1]`, positive fast EMA
period, slow EMA period strictly greater, `risk_management`'s
`max_position_percentage`, `max_daily_loss_percentage` and
`stop_loss_percentage` each in `(0,1]`, and a supported exchange name. -/
def validate_config (c : LiveTradingConfig) : Bool :=
  decide (0 < c.trading.initial_balance) &&
  decide (0 < c.trading.max_position_percentage ∧ c.trading.max_position_percentage ≤ 1) &&
  decide (0 < c.strategy.fast_ema_period) &&
  decide (c.strategy.fast_ema_period < c.strategy.slow_ema_period) &&
  decide (0 < c.risk_management.max_position_percentage ∧
    c.risk_management.max_position_percentage ≤ 1) &&
  decide (0 < c.risk_management.max_daily_loss_percentage ∧
    c.risk_management.max_daily_loss_percentage ≤ 1) &&
  decide (0 < c.risk_management.stop_loss_percentage ∧
    c.risk_management.stop_loss_percentage ≤ 1) &&
  (lower c.exchange.name == "binance" || lower c.exchange.name == "mock")

/-- `ConfigLoader.load_config` (lines 126-157) restricted to an already
parsed file: the configuration is returned iff validation raises no
error. -/
def load_config (c : LiveTradingConfig) : Option LiveTradingConfig :=
  if validate_config c then some c else none

end ConfigLoader

/-! ### Concrete fixtures

Values used to instantiate the claims: the default configuration of
`config_loader.create_default_config` and `__init__` defaults, a LONG
position of size 1 at entry 100, and a fresh market BUY order. -/

/-- A live LONG position: size 1 at entry price 100, marked at 100. -/
def posLong : Position :=
  { symbol := "BTCUSDT", side := PositionSide.LONG, size := 1, entry_price := 100,
    current_price := 100, unrealized_pnl := 0, realized_pnl := 0, margin := 1,
    percentage := 0, timestamp := 0, order_id := none }

/-- A `PositionManager` holding only `posLong`. -/
def pmLong : PositionManager :=
  { positions := [("BTCUSDT", posLong)], position_history := [],
    max_positions := 5, position_timeout := 3600 }

/-- An empty `PositionManager`. -/
def pmEmpty : PositionManager :=
  { positions := [], position_history := [], max_positions := 5,
    position_timeout := 3600 }

/-- A `RiskManager` with the default configuration of `risk_manager.py`
lines 43-49/62 and a fresh account of balance 10000. -/
def rmDefault : RiskManager :=
  { max_position_percentage := 19/20, max_daily_loss_percentage := 1/20,
    max_drawdown_percentage := 1/10, stop_loss_percentage := 1/50,
    take_profit_percentage := 3/50, min_position_size := 10, max_leverage := 20,
    daily_start_balance := 10000, peak_balance := 10000, current_balance := 10000,
    daily_pnl := 0, total_pnl := 0, current_drawdown := 0, max_drawdown := 0,
    trades_today := 0, max_trades_per_day := 50, trade_history := [],
    trading_enabled := true, risk_alerts := [] }

/-- `rmDefault` after a drawdown of 20% has been recorded (above the 10%
cap). -/
def rmDrawdown : RiskManager := { rmDefault with current_drawdown := 1/5 }

/-- A BUY signal of strength 1/2 at price 100. -/
def sigHalf : Signal :=
  { symbol := "BTCUSDT", action := "BUY", strength := 1/2, price := 100,
    timestamp := 0, reason := "" }

/-- A BUY signal of full strength. -/
def sigFull : Signal := { sigHalf with strength := 1 }

/-- An account with 10000 available balance. -/
def acctDefault : AccountInfo :=
  { total_wallet_balance := 10000, total_unrealized_pnl := 0,
    total_margin_balance := 10000, total_position_initial_margin := 0,
    total_open_order_initial_margin := 0, available_balance := 10000,
    max_withdraw_amount := 10000, timestamp := 0 }

/-- An account with only 5 available balance (below the configured
minimum position size of 10). -/
def acctTiny : AccountInfo := { acctDefault with available_balance := 5 }

/-- An account whose wallet balance has recovered above the previous
peak. -/
def acctRecovered : AccountInfo := { acctDefault with total_wallet_balance := 12000 }

/-- An `OrderExecutor` with the default configuration of
`order_executor.py` lines 45-58 and no orders yet. -/
def exDefault : OrderExecutor :=
  { max_retry_count := 3, retry_delay := 1, order_timeout := 30,
    slippage_tolerance := 1/1000, simulation_mode := true,
    simulation_latency := 1/10, simulation_slippage := 1/2000,
    orders := [], pending_ids := [], completed_ids := [], failed_ids := [] }

/-- A fresh market BUY order for quantity 1 at price 100. -/
def ordBuy : Order :=
  { order_id := "BTCUSDT_1", symbol := "BTCUSDT", side := OrderSide.BUY,
    type := OrderType.MARKET, quantity := 1, price := 100,
    status := OrderStatus.CREATED, timestamp := 0, filled_price := 0,
    filled_quantity := 0, commission := 0, filled_time := none }

/-- A filled (terminal) mock order. -/
def ordMockFilled : Order :=
  { order_id := "MOCK_1", symbol := "BTCUSDT", side := OrderSide.BUY,
    type := OrderType.MARKET, quantity := 1, price := 100,
    status := OrderStatus.FILLED, timestamp := 0, filled_price := 100,
    filled_quantity := 1, commission := 1/10, filled_time := some 0 }

/-- A mock connector holding only `ordMockFilled`. -/
def mockFilled : MockExchangeConnector :=
  { mock_balance := 10000, mock_orders := [("MOCK_1", ordMockFilled)],
    order_counter := 2 }

/-- The `trading` section of `create_default_config` (lines 255-261). -/
def tradingDefault : TradingConfig :=
  { symbol := "BTCUSDT", simulation_mode := true, initial_balance := 10000,
    max_position_percentage := 19/20, leverage := 1 }

/-- The `strategy` section of `create_default_config` (lines 262-269). -/
def strategyDefault : StrategyConfig :=
  { name := "SimpleEMAStrategy", fast_ema_period := 12, slow_ema_period := 26,
    signal_strength_threshold := 1/2 }

/-- The `risk_management` section of `create_default_config`
(lines 270-279), with `max_drawdown_percentage` and
`take_profit_percentage` replaced by values far outside `(0,1]`. -/
def riskSectionBad : RiskConfig :=
  { max_position_percentage := 19/20, max_daily_loss_percentage := 1/20,
    max_drawdown_percentage := 2, stop_loss_percentage := 1/50,
    take_profit_percentage := 3, min_position_size := 10, max_leverage := 20,
    max_trades_per_day := 50 }

/-- The `exchange` section of `create_default_config` (lines 293-299). -/
def exchangeDefault : ExchangeConfig :=
  { name := "mock", testnet := true, initial_balance := 10000 }

/-- The default configuration with out-of-range `max_drawdown_percentage`
and `take_profit_percentage`. -/
def cfgBadDrawdown : LiveTradingConfig :=
  { trading := tradingDefault, strategy := strategyDefault,
    risk_management := riskSectionBad, exchange := exchangeDefault }

/-! ## Theorems -/

/-! ### Association-list facts -/

theorem dictGet_dictSet {α : Type} (k : String) (v : α) (d : List (String × α)) :
    dictGet k (dictSet k v d) = some v := by
  induction d with
  | nil => simp [dictGet, dictSet]
  | cons hd t ih =>
    by_cases h : hd.1 = k
    · simp [dictGet, dictSet, h]
    · simpa [dictGet, dictSet, h] using ih

theorem dictGet_dictErase {α : Type} (k : String) (d : List (String × α)) :
    dictGet k (dictErase k d) = none := by
  induction d with
  | nil => simp [dictGet, dictErase]
  | cons hd t ih =>
    by_cases h : hd.1 = k
    · simpa [dictErase, dictGet, h] using ih
    · simpa [dictErase, dictGet, h] using ih

theorem has_position_of_dictGet {pm : PositionManager} {symbol : String} {p : Position}
    (hget : dictGet symbol pm.positions = some p) (hsize : 0 < p.size) :
    pm.has_position symbol = true := by
  simp [PositionManager.has_position, hget, hsize]

theorem ite_true_or {c1 c2 : Prop} [Decidable c1] [Decidable c2] :
    ((if c1 then true else if c2 then true else false) = true) ↔ (c1 ∨ c2) := by
  split_ifs <;> simp [*]

/-! ### Claims -/

/-- C10: for a symbol with no live position of nonzero size, both
`close_position` and `reduce_position` return `None` and leave the entire
manager state (hence the live table, the history, and every PnL figure)
unchanged. -/
theorem C10_missing_position_noop (pm : PositionManager) (symbol : String)
    (close_price : Option ℚ) (reduce_size price : ℚ) (now now' : ℕ)
    (h : pm.has_position symbol = false) :
    pm.close_position symbol close_price now = (pm, none) ∧
      pm.reduce_position symbol reduce_size price now' = (pm, none) := by
  constructor <;>
    simp [PositionManager.close_position, PositionManager.reduce_position, h]

theorem C10_witness :
    pmEmpty.has_position "BTCUSDT" = false ∧
      pmEmpty.close_position "BTCUSDT" none 0 = (pmEmpty, none) ∧
      pmEmpty.reduce_position "BTCUSDT" 1 100 0 = (pmEmpty, none) := by
  have h : pmEmpty.has_position "BTCUSDT" = false := by decide
  exact ⟨h, C10_missing_position_noop pmEmpty "BTCUSDT" none 1 100 0 0 h⟩

/-- C6: adding to a live same-direction position recomputes the entry
price as the size-weighted average
`(oldEntry * oldSize + price * addSize) / (oldSize + addSize)` and the
size as `oldSize + addSize`. -/
theorem C6_weighted_average_add (pm : PositionManager) (symbol : String) (p : Position)
    (additional_size price : ℚ) (order_id : Option String) (now : ℕ)
    (hget : dictGet symbol pm.positions = some p) (hsize : 0 < p.size) :
    (pm.open_position symbol p.side additional_size price order_id now).2 =
      some { p with
        size := p.size + additional_size
        entry_price := (p.entry_price * p.size + price * additional_size) /
          (p.size + additional_size)
        margin := p.margin + additional_size
        timestamp := now } := by
  have hp : pm.has_position symbol = true := has_position_of_dictGet hget hsize
  simp [PositionManager.open_position, hp, hget, PositionManager.add_to_position]
  ring_nf

theorem C6_witness :
    dictGet "BTCUSDT" pmLong.positions = some posLong ∧ (0:ℚ) < posLong.size ∧
      (pmLong.open_position "BTCUSDT" posLong.side 1 120 none 0).2.map Position.entry_price
        = some 110 := by
  have hget : dictGet "BTCUSDT" pmLong.positions = some posLong := by decide
  have hsize : (0:ℚ) < posLong.size := by norm_num [posLong]
  refine ⟨hget, hsize, ?_⟩
  rw [C6_weighted_average_add pmLong "BTCUSDT" posLong 1 120 none 0 hget hsize]
  norm_num [posLong]

/-- C5 (amended): `calculate_position_size` scales
`available_balance * max_position_percentage` by the signal strength and
clamps, in source order, below by `min_position_size`, then above by
`available_balance * 0.95` and by `available_balance * max_leverage`;
whenever `min_position_size` does not exceed the two ceilings the result
lies in the claimed interval. -/
theorem C5_position_size_clamped (r : RiskManager) (signal : Signal)
    (account_info : AccountInfo)
    (h1 : r.min_position_size ≤ account_info.available_balance * (19/20))
    (h2 : r.min_position_size ≤ account_info.available_balance * r.max_leverage) :
    r.min_position_size ≤ r.calculate_position_size signal account_info ∧
      r.calculate_position_size signal account_info ≤
        account_info.available_balance * (19/20) ∧
      r.calculate_position_size signal account_info ≤
        account_info.available_balance * r.max_leverage := by
  unfold RiskManager.calculate_position_size
  refine ⟨le_min (le_min (le_max_right _ _) h1) h2, ?_, min_le_right _ _⟩
  exact (min_le_left _ _).trans (min_le_right _ _)

theorem C5_witness :
    rmDefault.min_position_size ≤ acctDefault.available_balance * (19/20) ∧
      rmDefault.min_position_size ≤
        acctDefault.available_balance * rmDefault.max_leverage ∧
      rmDefault.min_position_size ≤ rmDefault.calculate_position_size sigHalf acctDefault ∧
      rmDefault.calculate_position_size sigHalf acctDefault ≤
        acctDefault.available_balance * (19/20) ∧
      rmDefault.calculate_position_size sigHalf acctDefault ≤
        acctDefault.available_balance * rmDefault.max_leverage ∧
      rmDefault.calculate_position_size sigHalf acctDefault = 4750 := by
  have h1 : rmDefault.min_position_size ≤ acctDefault.available_balance * (19/20) := by
    norm_num [rmDefault, acctDefault]
  have h2 : rmDefault.min_position_size ≤
      acctDefault.available_balance * rmDefault.max_leverage := by
    norm_num [rmDefault, acctDefault]
  have hb := C5_position_size_clamped rmDefault sigHalf acctDefault h1 h2
  refine ⟨h1, h2, hb.1, hb.2.1, hb.2.2, ?_⟩
  norm_num [rmDefault, acctDefault, sigHalf, RiskManager.calculate_position_size]

theorem C5_cex :
    rmDefault.calculate_position_size sigFull acctTiny = 19/4 ∧
      ¬ (rmDefault.min_position_size ≤ rmDefault.calculate_position_size sigFull acctTiny) ∧
      rmDefault.min_position_size = 10 := by
  norm_num [rmDefault, acctTiny, acctDefault, sigFull, sigHalf,
    RiskManager.calculate_position_size]

/-- C9 (amended): loading never inspects `max_drawdown_percentage` or
`take_profit_percentage`; it succeeds exactly when the initial balance is
positive, `trading.max_position_percentage`,
`risk_management.max_position_percentage`, `max_daily_loss_percentage`
and `stop_loss_percentage` lie in `(0,1]`, the EMA periods are positive
and ordered, and the exchange name is supported. -/
theorem C9_validated_fields (c : LiveTradingConfig) (d t : ℚ) :
    (ConfigLoader.load_config
        { c with risk_management :=
            { c.risk_management with max_drawdown_percentage := d,
                                     take_profit_percentage := t } }).isSome
      = (ConfigLoader.load_config c).isSome ∧
    ((ConfigLoader.load_config c).isSome = true ↔
      (0 < c.trading.initial_balance ∧
        (0 < c.trading.max_position_percentage ∧ c.trading.max_position_percentage ≤ 1) ∧
        0 < c.strategy.fast_ema_period ∧
        c.strategy.fast_ema_period < c.strategy.slow_ema_period ∧
        (0 < c.risk_management.max_position_percentage ∧
          c.risk_management.max_position_percentage ≤ 1) ∧
        (0 < c.risk_management.max_daily_loss_percentage ∧
          c.risk_management.max_daily_loss_percentage ≤ 1) ∧
        (0 < c.risk_management.stop_loss_percentage ∧
          c.risk_management.stop_loss_percentage ≤ 1) ∧
        (ConfigLoader.lower c.exchange.name = "binance" ∨
          ConfigLoader.lower c.exchange.name = "mock"))) := by
  have hv : ConfigLoader.validate_config
      { c with risk_management :=
          { c.risk_management with max_drawdown_percentage := d,
                                   take_profit_percentage := t } }
        = ConfigLoader.validate_config c := rfl
  constructor
  · simp only [ConfigLoader.load_config, hv]
    cases ConfigLoader.validate_config c <;> simp
  · simp [ConfigLoader.load_config, ConfigLoader.validate_config, and_assoc]

theorem C9_cex :
    (ConfigLoader.load_config cfgBadDrawdown).isSome = true ∧
      ¬ (cfgBadDrawdown.risk_management.max_drawdown_percentage ≤ 1) ∧
      ¬ (cfgBadDrawdown.risk_management.take_profit_percentage ≤ 1) := by
  norm_num [cfgBadDrawdown, riskSectionBad, tradingDefault, strategyDefault,
    exchangeDefault, ConfigLoader.load_config, ConfigLoader.validate_config]
  decide

/-- C7: `should_force_close_position` returns true exactly when the
current price is at or beyond the stop-loss or take-profit boundary
derived from the entry price, direction-aware. -/
theorem C7_force_close_boundary (r : RiskManager) (position : Position)
    (current_price : ℚ) (he : 0 < position.entry_price) :
    r.should_force_close_position position current_price = true ↔
      (if position.side = PositionSide.LONG then
        current_price ≤ r.calculate_stop_loss_price position.entry_price position.side ∨
          r.calculate_take_profit_price position.entry_price position.side ≤ current_price
      else
        r.calculate_stop_loss_price position.entry_price position.side ≤ current_price ∨
          current_price ≤ r.calculate_take_profit_price position.entry_price position.side) := by
  rcases hside : position.side with _ | _
  · have h1 : (current_price - position.entry_price) / position.entry_price
        ≤ -r.stop_loss_percentage ↔
        current_price ≤ position.entry_price * (1 - r.stop_loss_percentage) := by
      rw [div_le_iff₀ he]
      constructor <;> intro h <;> nlinarith
    have h2 : r.take_profit_percentage
        ≤ (current_price - position.entry_price) / position.entry_price ↔
        position.entry_price * (1 + r.take_profit_percentage) ≤ current_price := by
      rw [le_div_iff₀ he]
      constructor <;> intro h <;> nlinarith
    simp [RiskManager.should_force_close_position, RiskManager.calculate_stop_loss_price,
      RiskManager.calculate_take_profit_price, hside, ite_true_or, h1, h2]
  · have h1 : (position.entry_price - current_price) / position.entry_price
        ≤ -r.stop_loss_percentage ↔
        position.entry_price * (1 + r.stop_loss_percentage) ≤ current_price := by
      rw [div_le_iff₀ he]
      constructor <;> intro h <;> nlinarith
    have h2 : r.take_profit_percentage
        ≤ (position.entry_price - current_price) / position.entry_price ↔
        current_price ≤ position.entry_price * (1 - r.take_profit_percentage) := by
      rw [le_div_iff₀ he]
      constructor <;> intro h <;> nlinarith
    simp [RiskManager.should_force_close_position, RiskManager.calculate_stop_loss_price,
      RiskManager.calculate_take_profit_price, hside, ite_true_or, h1, h2]

theorem C7_witness :
    (0:ℚ) < posLong.entry_price ∧
      (rmDefault.should_force_close_position posLong 98 = true ↔
        (if posLong.side = PositionSide.LONG then
          (98:ℚ) ≤ rmDefault.calculate_stop_loss_price posLong.entry_price posLong.side ∨
            rmDefault.calculate_take_profit_price posLong.entry_price posLong.side ≤ 98
        else
          rmDefault.calculate_stop_loss_price posLong.entry_price posLong.side ≤ 98 ∨
            (98:ℚ) ≤ rmDefault.calculate_take_profit_price posLong.entry_price posLong.side)) ∧
      rmDefault.should_force_close_position posLong 98 = true ∧
      rmDefault.should_force_close_position posLong 99 = false := by
  have he : (0:ℚ) < posLong.entry_price := by norm_num [posLong]
  refine ⟨he, C7_force_close_boundary rmDefault posLong 98 he, ?_, ?_⟩ <;>
    norm_num [rmDefault, posLong, RiskManager.should_force_close_position]

/-- C4 (amended): while the current drawdown exceeds
`max_drawdown_percentage`, `validate_signal` rejects every signal, and it
keeps rejecting after `reset_daily_stats` and after `enable_trading`,
since neither touches `current_drawdown`; the block is lifted only when
`update_account_info` recomputes the drawdown from a recovered balance. -/
theorem C4_drawdown_blocks_until_recovery (r : RiskManager) (signal : Signal)
    (account_info a : AccountInfo) (current_position : Option Position)
    (hdd : r.max_drawdown_percentage < r.current_drawdown) :
    r.validate_signal signal account_info current_position = false ∧
      (r.reset_daily_stats).validate_signal signal account_info current_position = false ∧
      (r.reset_daily_stats).current_drawdown = r.current_drawdown ∧
      (r.enable_trading).validate_signal signal account_info current_position = false ∧
      (r.trading_enabled = true → 0 < r.max_trades_per_day →
        0 ≤ r.max_drawdown_percentage → r.peak_balance ≤ a.total_wallet_balance →
        0 < a.total_wallet_balance →
        ((r.reset_daily_stats).update_account_info a).validate_signal
          signal account_info current_position = true) := by
  have hv : ∀ r' : RiskManager,
      r'.max_drawdown_percentage < r'.current_drawdown →
      r'.validate_signal signal account_info current_position = false := by
    intro r' h
    unfold RiskManager.validate_signal
    split_ifs <;> rfl
  refine ⟨hv r hdd, hv _ hdd, rfl, hv _ hdd, ?_⟩
  intro hen htr hnn hpk hw
  have hpeak : (if r.peak_balance < a.total_wallet_balance then a.total_wallet_balance
      else r.peak_balance) = a.total_wallet_balance := by
    rcases lt_or_ge r.peak_balance a.total_wallet_balance with h | h
    · simp [h]
    · simp [not_lt.mpr h, le_antisymm hpk h]
  simp only [RiskManager.update_account_info, RiskManager.reset_daily_stats, hpeak]
  simp only [RiskManager.validate_signal]
  simp [hen, hw, htr, sub_self, not_lt.mpr hnn, Nat.not_le.mpr htr]

theorem C4_witness :
    rmDrawdown.max_drawdown_percentage < rmDrawdown.current_drawdown ∧
      rmDrawdown.validate_signal sigHalf acctDefault none = false ∧
      (rmDrawdown.reset_daily_stats).validate_signal sigHalf acctDefault none = false ∧
      ((rmDrawdown.reset_daily_stats).update_account_info acctRecovered).validate_signal
        sigHalf acctDefault none = true := by
  have hdd : rmDrawdown.max_drawdown_percentage < rmDrawdown.current_drawdown := by
    norm_num [rmDrawdown, rmDefault]
  have h := C4_drawdown_blocks_until_recovery rmDrawdown sigHalf acctDefault
    acctRecovered none hdd
  refine ⟨hdd, h.1, h.2.1, h.2.2.2.2 rfl ?_ ?_ ?_ ?_⟩ <;>
    norm_num [rmDrawdown, rmDefault, acctRecovered, acctDefault]

theorem C4_cex :
    rmDrawdown.max_drawdown_percentage < rmDrawdown.current_drawdown ∧
      (rmDrawdown.reset_daily_stats).validate_signal sigHalf acctDefault none = false ∧
      ((rmDrawdown.reset_daily_stats).enable_trading).validate_signal
        sigHalf acctDefault none = false := by
  norm_num [rmDrawdown, rmDefault, acctDefault, RiskManager.validate_signal,
    RiskManager.reset_daily_stats, RiskManager.enable_trading]

/-- C3 (amended): `open_position` on a symbol holding a live
opposite-side position auto-flips within the single call: it closes the
existing position at its current price (appending the realized record to
history, so the table passes through a closed-out state), then installs a
fresh position with the requested side. -/
theorem C3_auto_flip (pm : PositionManager) (symbol : String) (p : Position)
    (side : PositionSide) (size entry_price : ℚ) (order_id : Option String) (now : ℕ)
    (hget : dictGet symbol pm.positions = some p) (hsize : 0 < p.size)
    (hside : ¬ p.side = side) :
    pm.open_position symbol side size entry_price order_id now =
      ({ pm with
          position_history := pm.position_history ++
            [PositionManager.closed_record p p.current_price now]
          positions := dictSet symbol
            (PositionManager.new_position symbol side size entry_price order_id now)
            (dictErase symbol pm.positions) },
        some (PositionManager.new_position symbol side size entry_price order_id now)) ∧
      (PositionManager.new_position symbol side size entry_price order_id now).side
        = side ∧
      (PositionManager.closed_record p p.current_price now).realized_pnl =
        (if p.side = PositionSide.LONG then (p.current_price - p.entry_price) * p.size
         else (p.entry_price - p.current_price) * p.size) := by
  have hp : pm.has_position symbol = true := has_position_of_dictGet hget hsize
  refine ⟨?_, rfl, rfl⟩
  simp [PositionManager.open_position, PositionManager.close_position, hp, hget, hside]

theorem C3_witness :
    dictGet "BTCUSDT" pmLong.positions = some posLong ∧ (0:ℚ) < posLong.size ∧
      ¬ posLong.side = PositionSide.SHORT ∧
      pmLong.open_position "BTCUSDT" PositionSide.SHORT 1 100 none 0 =
        ({ pmLong with
            position_history := pmLong.position_history ++
              [PositionManager.closed_record posLong posLong.current_price 0]
            positions := dictSet "BTCUSDT"
              (PositionManager.new_position "BTCUSDT" PositionSide.SHORT 1 100 none 0)
              (dictErase "BTCUSDT" pmLong.positions) },
          some (PositionManager.new_position "BTCUSDT" PositionSide.SHORT 1 100 none 0)) := by
  have hget : dictGet "BTCUSDT" pmLong.positions = some posLong := by decide
  have hsize : (0:ℚ) < posLong.size := by norm_num [posLong]
  have hside : ¬ posLong.side = PositionSide.SHORT := by decide
  exact ⟨hget, hsize, hside,
    (C3_auto_flip pmLong "BTCUSDT" posLong PositionSide.SHORT 1 100 none 0
      hget hsize hside).1⟩

theorem C3_cex :
    (dictGet "BTCUSDT" pmLong.positions).map Position.side = some PositionSide.LONG ∧
      ((pmLong.open_position "BTCUSDT" PositionSide.SHORT 1 100 none 0).2.map
        Position.side) = some PositionSide.SHORT ∧
      ((dictGet "BTCUSDT"
          (pmLong.open_position "BTCUSDT" PositionSide.SHORT 1 100 none 0).1.positions).map
        Position.side) = some PositionSide.SHORT ∧
      (pmLong.open_position "BTCUSDT" PositionSide.SHORT 1 100 none 0).1.position_history.length
        = 1 := by
  decide

/-- C8 (amended): closing a position opened fresh realizes
`(exit - entry) * size` for LONG (mirrored for SHORT), appends the closed
record to the history and removes the live entry; in particular closing
at the entry price realizes exactly 0 no matter what commission the
execution layer charged, since commissions never enter the position
PnL. -/
theorem C8_close_realizes (pm : PositionManager) (symbol : String) (side : PositionSide)
    (size entry_price exit_price : ℚ) (order_id : Option String) (now now' : ℕ)
    (hfresh : dictGet symbol pm.positions = none) (hsize : 0 < size) :
    ((pm.open_position symbol side size entry_price order_id now).1.close_position
        symbol (some exit_price) now').2 =
      some (PositionManager.closed_record
        (PositionManager.new_position symbol side size entry_price order_id now)
        exit_price now') ∧
      (PositionManager.closed_record
        (PositionManager.new_position symbol side size entry_price order_id now)
        exit_price now').realized_pnl =
        (if side = PositionSide.LONG then (exit_price - entry_price) * size
         else (entry_price - exit_price) * size) ∧
      ((pm.open_position symbol side size entry_price order_id now).1.close_position
          symbol (some exit_price) now').1.position_history =
        (pm.open_position symbol side size entry_price order_id now).1.position_history
          ++ [PositionManager.closed_record
            (PositionManager.new_position symbol side size entry_price order_id now)
            exit_price now'] ∧
      dictGet symbol
        ((pm.open_position symbol side size entry_price order_id now).1.close_position
          symbol (some exit_price) now').1.positions = none := by
  have hnp : pm.has_position symbol = false := by
    simp [PositionManager.has_position, hfresh]
  have hopen : pm.open_position symbol side size entry_price order_id now =
      ({ pm with
          positions := dictSet symbol
            (PositionManager.new_position symbol side size entry_price order_id now)
            pm.positions },
        some (PositionManager.new_position symbol side size entry_price order_id now)) := by
    simp [PositionManager.open_position, hnp]
  have hget1 : dictGet symbol
      (pm.open_position symbol side size entry_price order_id now).1.positions =
      some (PositionManager.new_position symbol side size entry_price order_id now) := by
    rw [hopen]
    exact dictGet_dictSet symbol _ pm.positions
  have hp1 : (pm.open_position symbol side size entry_price order_id now).1.has_position
      symbol = true := by
    simp [PositionManager.has_position, hget1, PositionManager.new_position, hsize]
  refine ⟨?_, rfl, ?_, ?_⟩
  · simp [PositionManager.close_position, hp1, hget1]
  · simp [PositionManager.close_position, hp1, hget1]
  · simp [PositionManager.close_position, hp1, hget1, dictGet_dictErase]

theorem C8_cex :
    (((pmEmpty.open_position "BTCUSDT" PositionSide.LONG 1 100 none 0).1.close_position
        "BTCUSDT" (some 100) 1).2.map Position.realized_pnl) = some 0 ∧
      (exDefault.execute_order_simulation ordBuy true 0).commission = 2001/20000 ∧
      (0:ℚ) ≠ -((exDefault.execute_order_simulation ordBuy true 0).commission) := by
  refine ⟨?_, ?_, ?_⟩ <;>
    norm_num [pmEmpty, exDefault, ordBuy, PositionManager.open_position,
      PositionManager.close_position, PositionManager.closed_record,
      PositionManager.new_position, PositionManager.has_position, dictGet, dictSet,
      dictErase, OrderExecutor.execute_order_simulation]

/-- C1 (amended): for an order whose id is fresh, after `execute_order`
returns the id is out of the pending map and in exactly one of the
completed and failed lists; the at-most-one property holds before and
after the call, but not at the callback point inside it, where the id is
momentarily in both the pending map and the completed (resp. failed)
list — see `C1_cex`. -/
theorem C1_exclusive_after_execution (ex : OrderExecutor) (order : Order)
    (success_draw : Bool) (now : ℕ)
    (hp : order.order_id ∉ ex.pending_ids) (hc : order.order_id ∉ ex.completed_ids)
    (hf : order.order_id ∉ ex.failed_ids) :
    order.order_id ∉ (ex.execute_order order success_draw now).1.pending_ids ∧
      (order.order_id ∈ (ex.execute_order order success_draw now).1.completed_ids ↔
        success_draw = true) ∧
      (order.order_id ∈ (ex.execute_order order success_draw now).1.failed_ids ↔
        success_draw = false) := by
  cases success_draw <;>
    simp [OrderExecutor.execute_order, OrderExecutor.execute_order_callback_state,
      OrderExecutor.register_pending, OrderExecutor.execute_order_simulation,
      hp, hc, hf, List.mem_filter]

theorem C1_cex :
    "BTCUSDT_1" ∈ (exDefault.execute_order_callback_state ordBuy true 0).1.pending_ids ∧
      "BTCUSDT_1" ∈ (exDefault.execute_order_callback_state ordBuy true 0).1.completed_ids ∧
      (exDefault.execute_order ordBuy true 0).1 =
        { (exDefault.execute_order_callback_state ordBuy true 0).1 with
            pending_ids := ((exDefault.execute_order_callback_state ordBuy true 0).1.pending_ids.filter
              (fun oid => oid ≠ "BTCUSDT_1")) } := by
  refine ⟨by decide, by decide, rfl⟩

theorem C1_witness :
    "BTCUSDT_1" ∉ exDefault.pending_ids ∧ "BTCUSDT_1" ∉ exDefault.completed_ids ∧
      "BTCUSDT_1" ∉ exDefault.failed_ids ∧
      "BTCUSDT_1" ∉ (exDefault.execute_order ordBuy true 0).1.pending_ids ∧
      ("BTCUSDT_1" ∈ (exDefault.execute_order ordBuy true 0).1.completed_ids ↔ true = true) ∧
      ("BTCUSDT_1" ∈ (exDefault.execute_order ordBuy true 0).1.failed_ids ↔ true = false) := by
  have h1 : "BTCUSDT_1" ∉ exDefault.pending_ids := by decide
  have h2 : "BTCUSDT_1" ∉ exDefault.completed_ids := by decide
  have h3 : "BTCUSDT_1" ∉ exDefault.failed_ids := by decide
  exact ⟨h1, h2, h3, C1_exclusive_after_execution exDefault ordBuy true 0 h1 h2 h3⟩

/-- C2 (amended): a terminal order that is no longer in the executor's
pending map is never touched by `OrderExecutor.cancel_order`, and
`MockExchangeConnector.cancel_order` never changes a terminal order (it
cancels only `PENDING` ones); the guard of the executor's cancel is,
however, only pending-map membership, so a just-filled order still
pending during the awaited fill callback *is* flipped from `FILLED` to
`CANCELLED` — see `C2_cex`. -/
theorem C2_terminal_immutable_outside_pending (ex : OrderExecutor) (ex_oid : String)
    (m : MockExchangeConnector) (symbol : String) (m_oid : String) (o : Order)
    (hnp : ex_oid ∉ ex.pending_ids)
    (hmo : dictGet m_oid m.mock_orders = some o) (hterm : o.status.isTerminal = true) :
    ex.cancel_order ex_oid = (ex, false) ∧ m.cancel_order symbol m_oid = (m, false) := by
  constructor
  · simp [OrderExecutor.cancel_order, hnp]
  · cases hs : o.status <;> simp_all [MockExchangeConnector.cancel_order,
      OrderStatus.isTerminal, hmo]

theorem C2_witness :
    "BTCUSDT_1" ∉ exDefault.pending_ids ∧
      dictGet "MOCK_1" mockFilled.mock_orders = some ordMockFilled ∧
      ordMockFilled.status.isTerminal = true ∧
      exDefault.cancel_order "BTCUSDT_1" = (exDefault, false) ∧
      mockFilled.cancel_order "BTCUSDT" "MOCK_1" = (mockFilled, false) := by
  have h1 : "BTCUSDT_1" ∉ exDefault.pending_ids := by decide
  have h2 : dictGet "MOCK_1" mockFilled.mock_orders = some ordMockFilled := rfl
  have h3 : ordMockFilled.status.isTerminal = true := by decide
  exact ⟨h1, h2, h3,
    (C2_terminal_immutable_outside_pending exDefault "BTCUSDT_1" mockFilled "BTCUSDT"
      "MOCK_1" ordMockFilled h1 h2 h3).1,
    (C2_terminal_immutable_outside_pending exDefault "BTCUSDT_1" mockFilled "BTCUSDT"
      "MOCK_1" ordMockFilled h1 h2 h3).2⟩

theorem C2_cex :
    OrderStatus.FILLED.isTerminal = true ∧
      (exDefault.execute_order_callback_state ordBuy true 0).1.status_of "BTCUSDT_1"
        = some OrderStatus.FILLED ∧
      "BTCUSDT_1" ∈ (exDefault.execute_order_callback_state ordBuy true 0).1.pending_ids ∧
      ((exDefault.execute_order_callback_state ordBuy true 0).1.cancel_order "BTCUSDT_1").2
        = true ∧
      (((exDefault.execute_order_callback_state ordBuy true 0).1.cancel_order
          "BTCUSDT_1").1.status_of "BTCUSDT_1") = some OrderStatus.CANCELLED := by
  decide

theorem C8_witness :
    dictGet "BTCUSDT" pmEmpty.positions = none ∧ (0:ℚ) < 1 ∧
      (((pmEmpty.open_position "BTCUSDT" PositionSide.LONG 1 100 none 0).1.close_position
          "BTCUSDT" (some 100) 1).2 =
        some (PositionManager.closed_record
          (PositionManager.new_position "BTCUSDT" PositionSide.LONG 1 100 none 0) 100 1) ∧
        (PositionManager.closed_record
          (PositionManager.new_position "BTCUSDT" PositionSide.LONG 1 100 none 0)
          100 1).realized_pnl =
          (if PositionSide.LONG = PositionSide.LONG then ((100:ℚ) - 100) * 1
           else ((100:ℚ) - 100) * 1) ∧
        ((pmEmpty.open_position "BTCUSDT" PositionSide.LONG 1 100 none 0).1.close_position
            "BTCUSDT" (some 100) 1).1.position_history =
          (pmEmpty.open_position "BTCUSDT" PositionSide.LONG 1 100 none 0).1.position_history
            ++ [PositionManager.closed_record
              (PositionManager.new_position "BTCUSDT" PositionSide.LONG 1 100 none 0) 100 1] ∧
        dictGet "BTCUSDT"
          ((pmEmpty.open_position "BTCUSDT" PositionSide.LONG 1 100 none 0).1.close_position
            "BTCUSDT" (some 100) 1).1.positions = none) ∧
      (PositionManager.closed_record
        (PositionManager.new_position "BTCUSDT" PositionSide.LONG 1 100 none 0)
        100 1).realized_pnl = 0 := by
  have h1 : dictGet "BTCUSDT" pmEmpty.positions = none := rfl
  have h2 : (0:ℚ) < 1 := by norm_num
  refine ⟨h1, h2,
    C8_close_realizes pmEmpty "BTCUSDT" PositionSide.LONG 1 100 100 none 0 1 h1 h2, ?_⟩
  norm_num [PositionManager.closed_record, PositionManager.new_position]
